import Mathlib

/-
Shallow embedding of the balance-computation core of the repository
(src/mfm/model.py) and of its flow-graph builder, together with proofs of
the spec claims. Numeric values are modelled as rationals with exact
arithmetic; tabular data is modelled as ordered named columns of cells.
Line numbers in comments refer to src/mfm/model.py.
-/

namespace MFM

/-- Cell of a table: pandas columns in this program hold either numbers or
strings. Quantity columns are read through a float coercion; the embedding
reads a non-numeric cell in a quantity column as 0 (the Python code would
raise on such input, which no claim exercises). -/
inductive Cell where
  | num (q : ℚ)
  | str (s : String)
deriving DecidableEq, Repr

def Cell.toQ : Cell → ℚ
  | .num q => q
  | .str _ => 0

/-- Rendering of a cell as a string, modelling astype(str). A numeric cell
renders as its decimal text, which never equals the alphabetic route
keywords used by the code. -/
def Cell.asStr : Cell → String
  | .num q => toString q
  | .str s => s

/-- Boolean test that the first list starts with the second. -/
def charsStart : List Char → List Char → Bool
  | [], _ => true
  | _ :: _, [] => false
  | a :: pat, b :: s => a == b && charsStart pat s

/-- Boolean test that pat occurs as a contiguous run inside s. -/
def charsHas (pat s : List Char) : Bool :=
  match s with
  | [] => pat.isEmpty
  | _ :: rest => charsStart pat (s) || charsHas pat rest

/-- Python "pat in s" substring test. -/
def strHas (s pat : String) : Bool := charsHas pat.data s.data

/-- Python str.lower() (ASCII-adequate for the column names in play). -/
def lowerStr (s : String) : String := ⟨s.data.map Char.toLower⟩

/-- A pandas DataFrame, modelled as its ordered list of named columns. -/
structure DataFrame where
  cols : List (String × List Cell)
deriving DecidableEq, Repr

/-- Values of the column with the given exact name (empty if absent; the
code only looks up names previously returned by the resolver). -/
def DataFrame.col (df : DataFrame) (name : String) : List Cell :=
  ((df.cols.find? (fun c => c.1 = name)).map (fun c => c.2)).getD []

/-- model.py lines 15-20, _find_col: first column whose lowercased name
contains one of the keywords as a substring. -/
def findCol (df : DataFrame) (keywords : List String) : Option String :=
  (df.cols.find? (fun c => keywords.any (fun k => strHas (lowerStr c.1) k))).map (fun c => c.1)

/-- Sum of a column of cells coerced to numbers. -/
def sumQ (cells : List Cell) : ℚ := (cells.map Cell.toQ).sum

/-- model.py lines 22-24, _sum_material_in_kg. -/
def sumMaterialInKg (df : DataFrame) : Option ℚ :=
  (findCol df ["kg", "weight"]).map (fun c => sumQ (df.col c))

/-- model.py lines 26-28, _sum_waste_kg. -/
def sumWasteKg (df : DataFrame) : Option ℚ :=
  (findCol df ["kg", "quantity"]).map (fun c => sumQ (df.col c))

/-- model.py lines 30-39, _sum_waste_by_type: (type cell, quantity) rows,
empty when either column is missing. -/
def sumWasteByType (df : DataFrame) : List (Cell × ℚ) :=
  match findCol df ["waste"], findCol df ["kg", "quantity"] with
  | some tc, some kc => ((df.col tc).zip (df.col kc)).map (fun p => (p.1, p.2.toQ))
  | _, _ => []

/-- model.py lines 41-46, _energy_totals: (electricity, gas, any-found). -/
def energyTotals (df : DataFrame) : ℚ × ℚ × Bool :=
  let ec := findCol df ["electric"]
  let gc := findCol df ["gas"]
  ( match ec with | some c => sumQ (df.col c) | none => 0,
    match gc with | some c => sumQ (df.col c) | none => 0,
    ec.isSome || gc.isSome )

/-- One process stage (a "block"): the record consumed by the core.
Fields beyond label, type and yield are carried but never read by the
balance logic. -/
structure Block where
  user_label : String
  type : String
  yield_pct : ℚ := 92
  primary_material : String := ""
  throughput_unit : String := "kg"
deriving DecidableEq, Repr

/-- Scenario parameters, each defaulting to no change. -/
structure Scenarios where
  scrap_reduction_pct : ℚ := 0
  yield_improve_pct : ℚ := 0
  energy_intensity_improve_pct : ℚ := 0
  allocate_energy : Bool := false
deriving DecidableEq, Repr

/-- The four fixed tables of a data bundle. -/
structure DataBundle where
  production_output : DataFrame
  material_purchases : DataFrame
  energy_site : DataFrame
  waste_summary : DataFrame
deriving DecidableEq, Repr

/-- model.py lines 4-13, build_flow_model: the input record of
compute_balances. -/
structure Model where
  site_name : String := ""
  boundary_start : String
  boundary_end : String
  blocks : List Block
  data : DataBundle
  time_period : String := ""
  scenarios : Scenarios
deriving DecidableEq, Repr

/-- One row of the flows table; fromLabel and toLabel model the "from" and
"to" columns. -/
structure FlowRow where
  fromLabel : String
  toLabel : String
  kg : ℚ
  kind : String
deriving DecidableEq, Repr

/-- The result record of compute_balances (model.py lines 200-221). -/
structure BalanceResult where
  mat_in_kg : ℚ
  prod_out_kg : ℚ
  waste_out_kg : ℚ
  unaccounted_kg : ℚ
  material_eff_pct : ℚ
  waste_intensity : ℚ
  energy_elec_kwh : ℚ
  energy_gas_kwh : ℚ
  energy_intensity_kwh_per_kg : ℚ
  energy_alloc_table : Option (List (String × ℤ × ℤ))
  waste_by_type : List (Cell × ℚ)
  diversion_pct : ℚ
  diverted_kg : ℚ
  opportunities : List String
  ai_messages : List String
  assumptions : List String
  flows_table : List FlowRow
  blocks : List Block
  boundary_start : String
  boundary_end : String
deriving DecidableEq, Repr

/-- Round half to even (numpy rounding used by .round(0).astype(int)). -/
def roundHalfEven (q : ℚ) : ℤ :=
  let f := ⌊q⌋
  let r := q - f
  if r < 1/2 then f
  else if 1/2 < r then f + 1
  else if f % 2 = 0 then f else f + 1

/-- Renders a rational like the Python format "{x:.0f}" (rounded to a whole
number, half to even); the thousands separator of "{x:,.0f}" is not
reproduced. -/
def fmt0 (q : ℚ) : String := toString (roundHalfEven q)

/-- model.py lines 57-60: raw material input, when a kg/weight column was
found. -/
def matInOpt (m : Model) : Option ℚ := sumMaterialInKg m.data.material_purchases

/-- model.py lines 57-60: material input with the 0 fallback. -/
def matIn (m : Model) : ℚ := (matInOpt m).getD 0

/-- model.py lines 62-66: raw waste mass, when a kg/quantity column was
found. -/
def wasteRawOpt (m : Model) : Option ℚ := sumWasteKg m.data.waste_summary

/-- model.py lines 62-66: waste mass with the 0 fallback. -/
def wasteRaw (m : Model) : ℚ := (wasteRawOpt m).getD 0

/-- model.py lines 69-71: production count (0 when no qty column). -/
def qtyOf (m : Model) : ℚ :=
  match findCol m.data.production_output ["qty", "produced", "quantity"] with
  | some c => sumQ (m.data.production_output.col c)
  | none => 0

/-- model.py lines 72-73: production mass via the assumed 15.0 kg/pc. -/
def prodBase (m : Model) : ℚ := qtyOf m * 15

/-- model.py lines 78-79: waste after the scrap-reduction scenario. -/
def wasteScn (m : Model) : ℚ :=
  wasteRaw m * (1 - m.scenarios.scrap_reduction_pct / 100)

/-- model.py lines 84-85: production mass after the yield scenario. -/
def prodOut (m : Model) : ℚ :=
  prodBase m * (1 + m.scenarios.yield_improve_pct / 100)

/-- model.py line 93: clamped unaccounted residual. -/
def unaccountedOf (m : Model) : ℚ := max (matIn m - prodOut m - wasteScn m) 0

/-- model.py lines 96-98: loss-attribution targets; indexing blocks[0] on an
empty chain is the IndexError modelled by none. -/
def lossTargets (blocks : List Block) : Option (List Block) :=
  let ts := blocks.filter (fun b => b.type = "cutting" || b.type = "forming")
  if ts.isEmpty then blocks.head?.map (fun b => [b]) else some ts

/-- model.py lines 100-105: the fixed 60/40 split, renormalised. -/
def splitWeights (n : Nat) : List ℚ :=
  if 2 ≤ n then
    let s := ([0.6, 0.4] : List ℚ).take n
    s.map (fun w => w / s.sum)
  else [1]

/-- Insertion into a Python dict modelled as an insertion-ordered
association list: an existing key keeps its position and takes the new
value. -/
def dictInsert (d : List (String × ℚ)) (k : String) (v : ℚ) : List (String × ℚ) :=
  if d.any (fun p => p.1 = k) then d.map (fun p => if p.1 = k then (k, v) else p)
  else d ++ [(k, v)]

/-- model.py line 107: the dict comprehension over range(len(loss_targets));
running past the end of the split weights is the IndexError modelled by
none. -/
def lossDict : List (String × ℚ) → List Block → List ℚ → ℚ → Option (List (String × ℚ))
  | acc, [], _, _ => some acc
  | _, _ :: _, [], _ => none
  | acc, b :: bs, w :: ws, u => lossDict (dictInsert acc b.user_label (u * w)) bs ws u

/-- model.py lines 41-46 and 115: raw electricity total. -/
def elecRaw (m : Model) : ℚ := (energyTotals m.data.energy_site).1

/-- model.py lines 41-46 and 115: raw gas total. -/
def gasRaw (m : Model) : ℚ := (energyTotals m.data.energy_site).2.1

/-- model.py lines 41-46 and 115: whether any energy column was found. -/
def hasEnergy (m : Model) : Bool := (energyTotals m.data.energy_site).2.2

/-- model.py lines 116-119: electricity after the energy-intensity
scenario (applied only when energy data exists and the parameter is
positive). -/
def elecOut (m : Model) : ℚ :=
  if hasEnergy m = true ∧ 0 < m.scenarios.energy_intensity_improve_pct / 100 then
    elecRaw m * (1 - m.scenarios.energy_intensity_improve_pct / 100)
  else elecRaw m

/-- model.py lines 116-119: gas after the energy-intensity scenario. -/
def gasOut (m : Model) : ℚ :=
  if hasEnergy m = true ∧ 0 < m.scenarios.energy_intensity_improve_pct / 100 then
    gasRaw m * (1 - m.scenarios.energy_intensity_improve_pct / 100)
  else gasRaw m

/-- model.py lines 124-140: optional per-stage energy allocation using
yield percentages (floored at 1) as proxy weights. -/
def energyAlloc (m : Model) : Option (List (String × ℤ × ℤ)) :=
  if hasEnergy m && m.scenarios.allocate_energy then
    let weights := m.blocks.map (fun b => max b.yield_pct 1)
    let total := weights.sum
    let wnorm := if 0 < total then weights.map (fun w => w / total)
                 else m.blocks.map (fun _ => 1 / (m.blocks.length : ℚ))
    some ((m.blocks.zip wnorm).map (fun p =>
      (p.1.user_label, roundHalfEven (elecOut m * p.2), roundHalfEven (gasOut m * p.2))))
  else none

/-- model.py line 143: the waste-by-type table of the result. -/
def wasteByType (m : Model) : List (Cell × ℚ) := sumWasteByType m.data.waste_summary

/-- model.py lines 148-151: diverted mass (recycling/reuse routes), as a
total function; 0 when either the route or the quantity column is
missing. -/
def rawDiverted (m : Model) : ℚ :=
  match findCol m.data.waste_summary ["route", "disposal"],
        findCol m.data.waste_summary ["kg", "quantity"] with
  | some rc, some kc =>
    sumQ ((((m.data.waste_summary.col rc).zip (m.data.waste_summary.col kc)).filter
      (fun p => lowerStr p.1.asStr = "recycling" || lowerStr p.1.asStr = "reuse")).map
      (fun p => p.2))
  | _, _ => 0

/-- model.py lines 145-153: the diversion step. When a route column exists
the code indexes the waste table with the kg/quantity column name; if that
column is absent the lookup raises (KeyError), modelled by none. With no
route column the step degrades to 0 plus an assumption. -/
def divertedOf (m : Model) : Option (ℚ × List String) :=
  match findCol m.data.waste_summary ["route", "disposal"] with
  | some _ =>
    (findCol m.data.waste_summary ["kg", "quantity"]).map (fun _ => (rawDiverted m, ([] : List String)))
  | none => some (0, ["No disposal route column detected; diversion % may be incomplete."])

/-- model.py lines 159-171: rule-based circular opportunities. -/
def opportunitiesOf (m : Model) : List String :=
  let wbt := wasteByType m
  let rowsMatching := fun (pats : List String) =>
    wbt.filter (fun r => pats.any (fun p => strHas (lowerStr r.1.asStr) p))
  if wbt.isEmpty then []
  else
    (let steel := rowsMatching ["steel", "metal", "scrap"]
     if steel ≠ [] ∧ 500 < (steel.map (fun r => r.2)).sum then
       ["High clean metal scrap: consider closed-loop recycling with supplier or local reprocessor."]
     else []) ++
    (let mixed := rowsMatching ["mixed"]
     if mixed ≠ [] ∧ 300 < (mixed.map (fun r => r.2)).sum then
       ["Mixed waste is significant: segregation could increase recycling rate and reduce disposal cost."]
     else []) ++
    (let sludge := rowsMatching ["sludge", "hazard"]
     if sludge ≠ [] ∧ 100 < (sludge.map (fun r => r.2)).sum then
       ["Hazardous/sludge stream: review upstream process controls and chemical use to reduce generation."]
     else [])

/-- model.py line 182: the uniform throughput proxy magnitude. -/
def usefulThrough (m : Model) : ℚ := max (matIn m - wasteScn m - unaccountedOf m) 0

/-- model.py lines 174-193: the ordered flow-edge rows. -/
def flowRows (m : Model) (losses : List (String × ℚ)) (fb lb : Block) : List FlowRow :=
  (⟨m.boundary_start, fb.user_label, matIn m, "material_in"⟩ : FlowRow) ::
  ((m.blocks.zip m.blocks.tail).map (fun p =>
    (⟨p.1.user_label, p.2.user_label, usefulThrough m, "throughput_proxy"⟩ : FlowRow))
  ++ [⟨lb.user_label, m.boundary_end, prodOut m, "product_out"⟩,
      ⟨"All processes", "Waste streams", wasteScn m, "waste_out"⟩]
  ++ losses.map (fun kv =>
      (⟨kv.1, "Process losses (unaccounted)", kv.2, "loss_inferred"⟩ : FlowRow)))

/-- model.py line 196: material efficiency KPI with its zero guard. -/
def materialEff (m : Model) : ℚ :=
  if 0 < matIn m then prodOut m / matIn m * 100 else 0

/-- model.py line 197: waste intensity KPI with its zero guard. -/
def wasteIntensity (m : Model) : ℚ :=
  if 0 < prodOut m then wasteScn m / prodOut m else 0

/-- model.py line 198: energy intensity KPI with its zero guard. -/
def energyIntensity (m : Model) : ℚ :=
  if 0 < prodOut m then (elecOut m + gasOut m) / prodOut m else 0

/-- model.py lines 156-157: scenario-scaled diverted mass and diversion
percentage, from the raw diverted value. -/
def diversionPct (m : Model) (diverted : ℚ) : ℚ :=
  if 0 < wasteScn m then
    diverted * (1 - m.scenarios.scrap_reduction_pct / 100) / wasteScn m * 100
  else 0

/-- model.py lines 81, 87, 110, 120, 140: the AI highlight messages, in
emission order. -/
def aiMessages (m : Model) : List String :=
  (if 0 < m.scenarios.scrap_reduction_pct / 100 then
    ["Scenario applied: scrap/waste reduced by " ++ fmt0 m.scenarios.scrap_reduction_pct ++ "%."]
   else []) ++
  (if 0 < m.scenarios.yield_improve_pct / 100 then
    ["Scenario applied: yield improved by " ++ fmt0 m.scenarios.yield_improve_pct ++ "% (proxy increases product output)."]
   else []) ++
  (if 0 < unaccountedOf m then
    ["Detected ~" ++ fmt0 (unaccountedOf m) ++ " kg unaccounted material. Likely process losses (offcuts/rejects). Flagged for review."]
   else []) ++
  (if hasEnergy m = true ∧ 0 < m.scenarios.energy_intensity_improve_pct / 100 then
    ["Scenario applied: energy intensity improved by " ++ fmt0 m.scenarios.energy_intensity_improve_pct ++ "% (reduces site kWh)."]
   else []) ++
  (if hasEnergy m && m.scenarios.allocate_energy then
    ["AI assist: allocated site energy to processes using a simple activity proxy (editable assumption)."]
   else [])

/-- model.py lines 60, 66, 74, 111, 121, 153: the assumption strings, in
emission order; the last component comes from the diversion step. -/
def assumptionsOf (m : Model) (divAssums : List String) : List String :=
  (if (matInOpt m).isSome then [] else ["Material input mass missing; treated as 0 kg."]) ++
  (if (wasteRawOpt m).isSome then [] else ["Waste mass missing; treated as 0 kg."]) ++
  ["Converted output to mass using assumed unit mass = 15.0 kg/pc (demo assumption)."] ++
  (if 0 < unaccountedOf m then
    ["Unaccounted material attributed to cutting/forming losses (demo heuristic)."]
   else []) ++
  (if hasEnergy m then
    ["Energy is site-level; allocation to processes is optional and uses a proxy (throughput shares)."]
   else []) ++
  divAssums

/-- Assembly of the result record (model.py lines 200-221) from the values
of the fallible steps. -/
def mkResult (m : Model) (losses : List (String × ℚ)) (dv : ℚ × List String)
    (fb lb : Block) : BalanceResult :=
  { mat_in_kg := matIn m
    prod_out_kg := prodOut m
    waste_out_kg := wasteScn m
    unaccounted_kg := unaccountedOf m
    material_eff_pct := materialEff m
    waste_intensity := wasteIntensity m
    energy_elec_kwh := elecOut m
    energy_gas_kwh := gasOut m
    energy_intensity_kwh_per_kg := energyIntensity m
    energy_alloc_table := energyAlloc m
    waste_by_type := wasteByType m
    diversion_pct := diversionPct m dv.1
    diverted_kg := dv.1 * (1 - m.scenarios.scrap_reduction_pct / 100)
    opportunities := opportunitiesOf m
    ai_messages := aiMessages m
    assumptions := assumptionsOf m dv.2
    flows_table := flowRows m losses fb lb
    blocks := m.blocks
    boundary_start := m.boundary_start
    boundary_end := m.boundary_end }

/-- model.py lines 48-221, compute_balances. The three fallible points are
the loss-target selection on an empty chain, the indexing of the split
weights past their length, and the diversion lookup of a missing quantity
column; each surfaces as none. -/
def compute_balances (m : Model) : Option BalanceResult :=
  (lossTargets m.blocks).bind (fun targets =>
    (lossDict [] targets (splitWeights targets.length) (unaccountedOf m)).bind (fun losses =>
      (divertedOf m).bind (fun dv =>
        (m.blocks.head?).bind (fun fb =>
          (m.blocks.getLast?).map (fun lb => mkResult m losses dv fb lb)))))

/-- The indexed graph produced for the Sankey renderer. -/
structure SankeyInputs where
  labels : List String
  sources : List Nat
  targets : List Nat
  values : List ℚ
deriving DecidableEq, Repr

/-- Deduplication keeping first occurrences, as pd.unique does. -/
def dedupFirst (l : List String) : List String :=
  l.foldl (fun acc x => if x ∈ acc then acc else acc ++ [x]) []

/-- model.py lines 223-230, build_sankey_inputs. -/
def build_sankey_inputs (results : BalanceResult) : SankeyInputs :=
  let flows := results.flows_table
  let labels := dedupFirst (flows.map (fun r => r.fromLabel) ++ flows.map (fun r => r.toLabel))
  { labels := labels
    sources := flows.map (fun r => labels.indexOf r.fromLabel)
    targets := flows.map (fun r => labels.indexOf r.toLabel)
    values := flows.map (fun r => r.kg) }

/-- A zeroed result record, used only to name the computed result of a
concrete model in closed statements. -/
def defaultResult : BalanceResult :=
  { mat_in_kg := 0, prod_out_kg := 0, waste_out_kg := 0, unaccounted_kg := 0
    material_eff_pct := 0, waste_intensity := 0, energy_elec_kwh := 0
    energy_gas_kwh := 0, energy_intensity_kwh_per_kg := 0
    energy_alloc_table := none, waste_by_type := [], diversion_pct := 0
    diverted_kg := 0, opportunities := [], ai_messages := [], assumptions := []
    flows_table := [], blocks := [], boundary_start := "", boundary_end := "" }

/-- Loss-attribution edges of a result. -/
def lossEdges (r : BalanceResult) : List FlowRow :=
  r.flows_table.filter (fun e => e.kind = "loss_inferred")

/-- Boolean predicate: every cell of every column of the table is a
non-negative number or a string (strings coerce to 0 in the embedding). -/
def dfNonneg (df : DataFrame) : Bool :=
  df.cols.all (fun c => c.2.all (fun x => decide (0 ≤ x.toQ)))

theorem compute_eq_some_iff {m : Model} {r : BalanceResult} :
    compute_balances m = some r ↔
      ∃ targets losses dv fb lb,
        lossTargets m.blocks = some targets ∧
        lossDict [] targets (splitWeights targets.length) (unaccountedOf m) = some losses ∧
        divertedOf m = some dv ∧
        m.blocks.head? = some fb ∧
        m.blocks.getLast? = some lb ∧
        r = mkResult m losses dv fb lb := by
  simp only [compute_balances, Option.bind_eq_some, Option.map_eq_some']
  constructor
  · rintro ⟨t, ht, l, hl, d, hd, f, hf, b, hb, hr⟩
    exact ⟨t, l, d, f, b, ht, hl, hd, hf, hb, hr.symm⟩
  · rintro ⟨t, l, d, f, b, ht, hl, hd, hf, hb, hr⟩
    exact ⟨t, ht, l, hl, d, hd, f, hf, b, hb, hr.symm⟩

theorem lossDict_one (b : Block) (w u : ℚ) :
    lossDict [] [b] [w] u = some [(b.user_label, u * w)] := by
  simp [lossDict, dictInsert]

theorem lossDict_two (b1 b2 : Block) (w1 w2 u : ℚ) :
    lossDict [] [b1, b2] [w1, w2] u =
      some (dictInsert [(b1.user_label, u * w1)] b2.user_label (u * w2)) := by
  simp [lossDict, dictInsert]

theorem dictInsert_ne (l1 : String) (v1 : ℚ) (l2 : String) (v2 : ℚ) (h : l1 ≠ l2) :
    dictInsert [(l1, v1)] l2 v2 = [(l1, v1), (l2, v2)] := by
  simp [dictInsert, h]

theorem dictInsert_eq (l1 : String) (v1 : ℚ) (v2 : ℚ) :
    dictInsert [(l1, v1)] l1 v2 = [(l1, v2)] := by
  simp [dictInsert]

theorem splitWeights_one : splitWeights 1 = [1] := by
  simp [splitWeights]

theorem splitWeights_two : splitWeights 2 = [3/5, 2/5] := by
  norm_num [splitWeights]

theorem lossEdges_mkResult (m : Model) (losses : List (String × ℚ))
    (dv : ℚ × List String) (fb lb : Block) :
    lossEdges (mkResult m losses dv fb lb) =
      losses.map (fun kv =>
        (⟨kv.1, "Process losses (unaccounted)", kv.2, "loss_inferred"⟩ : FlowRow)) := by
  unfold lossEdges mkResult flowRows
  simp only [List.filter_cons, List.filter_append, List.filter_map]
  simp +decide [Function.comp_def, List.filter_eq_self]

theorem sumQ_nonneg {cells : List Cell} (h : ∀ x ∈ cells, 0 ≤ x.toQ) :
    0 ≤ sumQ cells := by
  unfold sumQ
  induction cells with
  | nil => simp
  | cons a t ih =>
    simp only [List.map_cons, List.sum_cons]
    have ha := h a (by simp)
    have ht : ∀ x ∈ t, 0 ≤ x.toQ := fun x hx => h x (by simp [hx])
    exact add_nonneg ha (ih ht)

theorem col_nonneg {df : DataFrame} (h : dfNonneg df = true) (name : String) :
    ∀ x ∈ df.col name, 0 ≤ x.toQ := by
  intro x hx
  unfold DataFrame.col at hx
  cases hfind : df.cols.find? (fun c => c.1 = name) with
  | none => simp [hfind] at hx
  | some c =>
    simp only [hfind, Option.map_some', Option.getD_some] at hx
    have hc := List.mem_of_find?_eq_some hfind
    unfold dfNonneg at h
    rw [List.all_eq_true] at h
    have h2 := h c hc
    rw [List.all_eq_true] at h2
    simpa using h2 x hx

theorem matIn_nonneg {m : Model} (h : dfNonneg m.data.material_purchases = true) :
    0 ≤ matIn m := by
  unfold matIn matInOpt sumMaterialInKg
  cases hf : findCol m.data.material_purchases ["kg", "weight"] with
  | none => simp
  | some c =>
    simp only [hf, Option.map_some', Option.getD_some]
    exact sumQ_nonneg (col_nonneg h c)

theorem wasteRaw_nonneg {m : Model} (h : dfNonneg m.data.waste_summary = true) :
    0 ≤ wasteRaw m := by
  unfold wasteRaw wasteRawOpt sumWasteKg
  cases hf : findCol m.data.waste_summary ["kg", "quantity"] with
  | none => simp
  | some c =>
    simp only [hf, Option.map_some', Option.getD_some]
    exact sumQ_nonneg (col_nonneg h c)

theorem qtyOf_nonneg {m : Model} (h : dfNonneg m.data.production_output = true) :
    0 ≤ qtyOf m := by
  unfold qtyOf
  cases hf : findCol m.data.production_output ["qty", "produced", "quantity"] with
  | none => simp
  | some c =>
    simp only [hf]
    exact sumQ_nonneg (col_nonneg h c)

theorem foldl_ins_mem (l : List String) (acc : List String) (x : String)
    (h : x ∈ acc ∨ x ∈ l) :
    x ∈ l.foldl (fun acc y => if y ∈ acc then acc else acc ++ [y]) acc := by
  induction l generalizing acc with
  | nil => simpa using h
  | cons a t ih =>
    simp only [List.foldl_cons]
    apply ih
    rcases h with h | h
    · left; by_cases ha : a ∈ acc <;> simp [ha, h]
    · rcases List.mem_cons.mp h with rfl | h
      · left; by_cases ha : x ∈ acc <;> simp [ha]
      · right; exact h

theorem mem_dedupFirst {x : String} {l : List String} (h : x ∈ l) :
    x ∈ dedupFirst l :=
  foldl_ins_mem l [] x (Or.inr h)

/-- Spec-modelled restatement of the loss-target selection rule (spec 4.4
step 5): all stages tagged cutting or forming, else the first stage of the
chain. -/
def specTargets (blocks : List Block) : List Block :=
  let ts := blocks.filter (fun b => b.type = "cutting" || b.type = "forming")
  if ts.isEmpty then blocks.take 1 else ts

/-- Spec-modelled restatement of the loss split (spec 4.4 step 6): 100% to a
single target, 60%/40% to the first two, zero weight beyond the second. -/
def specSplit : List String → ℚ → List (String × ℚ)
  | [], _ => []
  | [t], u => [(t, u)]
  | t1 :: t2 :: rest, u =>
    (t1, u * (3/5)) :: (t2, u * (2/5)) :: rest.map (fun t => (t, 0))

theorem lossTargets_spec {blocks targets : List Block}
    (ht : lossTargets blocks = some targets) :
    targets = specTargets blocks ∧ targets ≠ [] := by
  unfold lossTargets at ht
  unfold specTargets
  by_cases he : (blocks.filter (fun b => b.type = "cutting" || b.type = "forming")).isEmpty
  · simp only [he, if_true] at ht ⊢
    cases blocks with
    | nil => simp at ht
    | cons b bs =>
      simp only [List.head?_cons, Option.map_some', Option.some.injEq] at ht
      subst ht
      simp
  · simp only [he, if_false] at ht ⊢
    obtain rfl := Option.some.inj ht
    simpa using he

theorem lossDict_some_length {ts : List Block} :
    ∀ {acc : List (String × ℚ)} {ws : List ℚ} {u : ℚ} {l : List (String × ℚ)},
      lossDict acc ts ws u = some l → ts.length ≤ ws.length := by
  induction ts with
  | nil => intro acc ws u l _; simp
  | cons b bs ih =>
    intro acc ws u l h
    cases ws with
    | nil => simp [lossDict] at h
    | cons w ws' =>
      simpa using Nat.succ_le_succ (ih h)

theorem splitWeights_length_le (n : Nat) : (splitWeights n).length ≤ 2 := by
  unfold splitWeights
  split
  · simp only [List.length_map, List.length_take, List.length_cons,
      List.length_nil]
    omega
  · simp

theorem lossEdges_one_target {m : Model} {r : BalanceResult} {t1 : Block}
    (h : compute_balances m = some r)
    (ht : lossTargets m.blocks = some [t1]) :
    lossEdges r = [⟨t1.user_label, "Process losses (unaccounted)",
      r.unaccounted_kg, "loss_inferred"⟩] := by
  obtain ⟨t, l, d, f, b, ht', hl, hd, hf, hb, hr⟩ := compute_eq_some_iff.mp h
  rw [ht] at ht'
  obtain rfl := Option.some.inj ht'
  rw [show ([t1] : List Block).length = 1 from rfl, splitWeights_one, lossDict_one] at hl
  obtain rfl := Option.some.inj hl
  subst hr
  rw [lossEdges_mkResult]
  show _ = [(⟨t1.user_label, "Process losses (unaccounted)", unaccountedOf m, "loss_inferred"⟩ : FlowRow)]
  simp [mul_one]

theorem lossEdges_two_targets {m : Model} {r : BalanceResult} {t1 t2 : Block}
    (h : compute_balances m = some r)
    (ht : lossTargets m.blocks = some [t1, t2]) :
    (t1.user_label ≠ t2.user_label →
      lossEdges r = [⟨t1.user_label, "Process losses (unaccounted)",
          r.unaccounted_kg * (3/5), "loss_inferred"⟩,
        ⟨t2.user_label, "Process losses (unaccounted)",
          r.unaccounted_kg * (2/5), "loss_inferred"⟩]) ∧
    (t1.user_label = t2.user_label →
      lossEdges r = [⟨t1.user_label, "Process losses (unaccounted)",
        r.unaccounted_kg * (2/5), "loss_inferred"⟩]) := by
  obtain ⟨t, l, d, f, b, ht', hl, hd, hf, hb, hr⟩ := compute_eq_some_iff.mp h
  rw [ht] at ht'
  obtain rfl := Option.some.inj ht'
  rw [show ([t1, t2] : List Block).length = 2 from rfl, splitWeights_two,
    lossDict_two] at hl
  obtain rfl := Option.some.inj hl
  subst hr
  constructor
  · intro hne
    rw [lossEdges_mkResult, dictInsert_ne _ _ _ _ hne]
    rfl
  · intro heq
    rw [lossEdges_mkResult, ← heq, dictInsert_eq]
    rfl

theorem divertedOf_some {m : Model} {dv : ℚ × List String}
    (h : divertedOf m = some dv) :
    dv.1 = rawDiverted m ∧
    (findCol m.data.waste_summary ["route", "disposal"] = none →
      dv.2 = ["No disposal route column detected; diversion % may be incomplete."]) := by
  cases hr : findCol m.data.waste_summary ["route", "disposal"] with
  | none =>
    unfold divertedOf at h
    rw [hr] at h
    obtain rfl := Option.some.inj h
    refine ⟨?_, fun _ => rfl⟩
    show (0:ℚ) = rawDiverted m
    cases hk : findCol m.data.waste_summary ["kg", "quantity"] <;>
      simp [rawDiverted, hr, hk]
  | some rc =>
    unfold divertedOf at h
    rw [hr] at h
    rw [Option.map_eq_some'] at h
    obtain ⟨kc, hkc, hdv⟩ := h
    subst hdv
    exact ⟨rfl, fun habs => absurd habs (Option.some_ne_none rc)⟩

/-- Demo material-purchase table: one kg column summing to 10000. -/
def dfMat : DataFrame := ⟨[("Mass_kg", [Cell.num 10000])]⟩

/-- Demo production table: one quantity column summing to 500 pieces. -/
def dfProd : DataFrame := ⟨[("Qty_produced", [Cell.num 500])]⟩

/-- Demo energy table with electricity and gas columns. -/
def dfEnergy : DataFrame :=
  ⟨[("Electricity_kWh", [Cell.num 1000]), ("Gas_kWh", [Cell.num 2000])]⟩

/-- Demo waste table with type, quantity and disposal-route columns. -/
def dfWaste : DataFrame :=
  ⟨[("Waste Type", [Cell.str "Steel scrap", Cell.str "Mixed"]),
    ("Quantity (kg)", [Cell.num 1200, Cell.num 300]),
    ("Disposal Route", [Cell.str "Recycling", Cell.str "Landfill"])]⟩

/-- Demo data bundle. -/
def demoBundle : DataBundle :=
  { production_output := dfProd, material_purchases := dfMat,
    energy_site := dfEnergy, waste_summary := dfWaste }

/-- Demo model: three stages (cutting, forming, assembly), all scenario
parameters zero. Baseline: 10000 kg in, 7500 kg product, 1500 kg waste,
1000 kg unaccounted. -/
def demoModel : Model :=
  { boundary_start := "Incoming material", boundary_end := "Dispatch",
    blocks := [{ user_label := "Cutting", type := "cutting" },
               { user_label := "Forming", type := "forming" },
               { user_label := "Assembly", type := "assembly" }],
    data := demoBundle, scenarios := {} }

/-- The computed result of the demo model (defined for use in closed
statements). -/
def demoRes : BalanceResult := (compute_balances demoModel).getD defaultResult

/-- C1: compute_balances sets unaccounted_kg to the clamped residual
max(mat_in_kg - prod_out_kg - waste_out_kg, 0) of the returned
scenario-adjusted masses, and whenever the raw residual is non-negative the
returned fields close exactly: mat_in_kg = prod_out_kg + waste_out_kg +
unaccounted_kg. -/
theorem C1_unaccounted_closure (m : Model) (r : BalanceResult)
    (h : compute_balances m = some r) :
    r.unaccounted_kg = max (r.mat_in_kg - r.prod_out_kg - r.waste_out_kg) 0 ∧
    (0 ≤ r.mat_in_kg - r.prod_out_kg - r.waste_out_kg →
      r.mat_in_kg = r.prod_out_kg + r.waste_out_kg + r.unaccounted_kg) := by
  obtain ⟨t, l, d, f, b, ht, hl, hd, hf, hb, hr⟩ := compute_eq_some_iff.mp h
  subst hr
  refine ⟨rfl, ?_⟩
  intro hres
  have hres' : 0 ≤ matIn m - prodOut m - wasteScn m := hres
  show matIn m = prodOut m + wasteScn m + unaccountedOf m
  unfold unaccountedOf
  rw [max_eq_left hres']
  ring

/-- C1 witness: the demo model (residual 1000, no clamping). -/
theorem C1_witness :
    demoRes.unaccounted_kg =
      max (demoRes.mat_in_kg - demoRes.prod_out_kg - demoRes.waste_out_kg) 0 ∧
    (0 ≤ demoRes.mat_in_kg - demoRes.prod_out_kg - demoRes.waste_out_kg →
      demoRes.mat_in_kg = demoRes.prod_out_kg + demoRes.waste_out_kg + demoRes.unaccounted_kg) :=
  C1_unaccounted_closure demoModel demoRes (by rfl)

/-- C9: for any BalanceResult the flow-graph builder returns three parallel
sequences whose common length is the number of edges, all indices lie below
the number of labels, and the labels are the first-occurrence
deduplication of the from column followed by the to column. -/
theorem C9_graph_wellformed (r : BalanceResult) :
    (build_sankey_inputs r).sources.length = r.flows_table.length ∧
    (build_sankey_inputs r).targets.length = r.flows_table.length ∧
    (build_sankey_inputs r).values.length = r.flows_table.length ∧
    (build_sankey_inputs r).labels =
      dedupFirst (r.flows_table.map FlowRow.fromLabel ++ r.flows_table.map FlowRow.toLabel) ∧
    (∀ i ∈ (build_sankey_inputs r).sources, i < (build_sankey_inputs r).labels.length) ∧
    (∀ i ∈ (build_sankey_inputs r).targets, i < (build_sankey_inputs r).labels.length) := by
  refine ⟨by simp [build_sankey_inputs], by simp [build_sankey_inputs],
    by simp [build_sankey_inputs], rfl, ?_, ?_⟩
  · intro i hi
    simp only [build_sankey_inputs, List.mem_map] at hi
    obtain ⟨row, hrow, rfl⟩ := hi
    simp only [build_sankey_inputs]
    rw [List.indexOf_lt_length]
    apply mem_dedupFirst
    simp only [List.mem_append, List.mem_map]
    exact Or.inl ⟨row, hrow, rfl⟩
  · intro i hi
    simp only [build_sankey_inputs, List.mem_map] at hi
    obtain ⟨row, hrow, rfl⟩ := hi
    simp only [build_sankey_inputs]
    rw [List.indexOf_lt_length]
    apply mem_dedupFirst
    simp only [List.mem_append, List.mem_map]
    exact Or.inr ⟨row, hrow, rfl⟩

/-- C6: with every scenario percentage 0 and allocate_energy false, the
returned aggregates are exactly the unscaled baselines and no allocation
table is produced. -/
theorem C6_zero_scenario_identity (m : Model) (r : BalanceResult)
    (h : compute_balances m = some r)
    (hs : m.scenarios = { scrap_reduction_pct := 0, yield_improve_pct := 0,
                          energy_intensity_improve_pct := 0, allocate_energy := false }) :
    r.waste_out_kg = wasteRaw m ∧
    r.prod_out_kg = qtyOf m * 15 ∧
    r.energy_elec_kwh = elecRaw m ∧
    r.energy_gas_kwh = gasRaw m ∧
    r.energy_alloc_table = none := by
  obtain ⟨t, l, d, f, b, ht, hl, hd, hf, hb, hr⟩ := compute_eq_some_iff.mp h
  subst hr
  refine ⟨?_, ?_, ?_, ?_, ?_⟩
  · show wasteScn m = wasteRaw m
    unfold wasteScn
    rw [hs]
    norm_num
  · show prodOut m = qtyOf m * 15
    unfold prodOut prodBase
    rw [hs]
    norm_num
  · show elecOut m = elecRaw m
    unfold elecOut
    rw [hs]
    norm_num
  · show gasOut m = gasRaw m
    unfold gasOut
    rw [hs]
    norm_num
  · show energyAlloc m = none
    unfold energyAlloc
    rw [hs]
    simp

/-- C6 witness: the demo model has all scenarios zeroed. -/
theorem C6_witness :
    demoRes.waste_out_kg = wasteRaw demoModel ∧
    demoRes.prod_out_kg = qtyOf demoModel * 15 ∧
    demoRes.energy_elec_kwh = elecRaw demoModel ∧
    demoRes.energy_gas_kwh = gasRaw demoModel ∧
    demoRes.energy_alloc_table = none :=
  C6_zero_scenario_identity demoModel demoRes (by rfl) (by rfl)

/-- C7: the three KPI fields equal their ratio formulas guarded by
division-by-zero checks that return exactly 0 on a zero denominator
(assuming the non-negative quantities of valid inputs). -/
theorem C7_kpi_guarded (m : Model) (r : BalanceResult)
    (h : compute_balances m = some r)
    (hm : 0 ≤ matIn m) (hp : 0 ≤ prodOut m) :
    (r.material_eff_pct = if r.mat_in_kg = 0 then 0 else r.prod_out_kg / r.mat_in_kg * 100) ∧
    (r.waste_intensity = if r.prod_out_kg = 0 then 0 else r.waste_out_kg / r.prod_out_kg) ∧
    (r.energy_intensity_kwh_per_kg =
      if r.prod_out_kg = 0 then 0 else (r.energy_elec_kwh + r.energy_gas_kwh) / r.prod_out_kg) := by
  obtain ⟨t, l, d, f, b, ht, hl, hd, hf, hb, hr⟩ := compute_eq_some_iff.mp h
  subst hr
  refine ⟨?_, ?_, ?_⟩
  · show materialEff m = if matIn m = 0 then 0 else prodOut m / matIn m * 100
    unfold materialEff
    rcases eq_or_lt_of_le hm with heq | hlt
    · rw [if_neg (by rw [← heq]; exact lt_irrefl 0), if_pos heq.symm]
    · rw [if_pos hlt, if_neg (ne_of_gt hlt)]
  · show wasteIntensity m = if prodOut m = 0 then 0 else wasteScn m / prodOut m
    unfold wasteIntensity
    rcases eq_or_lt_of_le hp with heq | hlt
    · rw [if_neg (by rw [← heq]; exact lt_irrefl 0), if_pos heq.symm]
    · rw [if_pos hlt, if_neg (ne_of_gt hlt)]
  · show energyIntensity m = if prodOut m = 0 then 0 else (elecOut m + gasOut m) / prodOut m
    unfold energyIntensity
    rcases eq_or_lt_of_le hp with heq | hlt
    · rw [if_neg (by rw [← heq]; exact lt_irrefl 0), if_pos heq.symm]
    · rw [if_pos hlt, if_neg (ne_of_gt hlt)]

/-- C7 witness: the demo model has non-negative aggregates. -/
theorem C7_witness :
    (demoRes.material_eff_pct =
      if demoRes.mat_in_kg = 0 then 0 else demoRes.prod_out_kg / demoRes.mat_in_kg * 100) ∧
    (demoRes.waste_intensity =
      if demoRes.prod_out_kg = 0 then 0 else demoRes.waste_out_kg / demoRes.prod_out_kg) ∧
    (demoRes.energy_intensity_kwh_per_kg =
      if demoRes.prod_out_kg = 0 then 0
      else (demoRes.energy_elec_kwh + demoRes.energy_gas_kwh) / demoRes.prod_out_kg) :=
  C7_kpi_guarded demoModel demoRes (by rfl)
    (matIn_nonneg (by decide)) (by
      unfold prodOut prodBase
      have hq : (0:ℚ) ≤ qtyOf demoModel := qtyOf_nonneg (by decide)
      have hy : (0:ℚ) ≤ demoModel.scenarios.yield_improve_pct / 100 := by norm_num [demoModel]
      nlinarith)

/-- C4: for valid inputs (non-negative table quantities, scrap reduction in
the range 0 to 100, non-negative yield improvement) the returned
unaccounted_kg, waste_out_kg and material_eff_pct are non-negative. -/
theorem C4_nonneg (m : Model) (r : BalanceResult)
    (h : compute_balances m = some r)
    (hwd : dfNonneg m.data.waste_summary = true)
    (hpd : dfNonneg m.data.production_output = true)
    (hs0 : 0 ≤ m.scenarios.scrap_reduction_pct)
    (hs1 : m.scenarios.scrap_reduction_pct ≤ 100)
    (hy : 0 ≤ m.scenarios.yield_improve_pct) :
    0 ≤ r.unaccounted_kg ∧ 0 ≤ r.waste_out_kg ∧ 0 ≤ r.material_eff_pct := by
  obtain ⟨t, l, d, f, b, ht, hl, hd, hf, hb, hr⟩ := compute_eq_some_iff.mp h
  subst hr
  have hw := wasteRaw_nonneg hwd
  have hq := qtyOf_nonneg hpd
  have hprod : 0 ≤ prodOut m := by
    unfold prodOut prodBase
    have h15 : (0:ℚ) ≤ qtyOf m * 15 := by nlinarith
    nlinarith
  refine ⟨?_, ?_, ?_⟩
  · show 0 ≤ unaccountedOf m
    unfold unaccountedOf
    exact le_max_right _ _
  · show 0 ≤ wasteScn m
    unfold wasteScn
    have hfac : (0:ℚ) ≤ 1 - m.scenarios.scrap_reduction_pct / 100 := by linarith
    exact mul_nonneg hw hfac
  · show 0 ≤ materialEff m
    unfold materialEff
    split
    · next hlt => exact mul_nonneg (div_nonneg hprod (le_of_lt hlt)) (by norm_num)
    · next => exact le_refl 0

/-- C4 witness: the demo model with its non-negative tables and zero
scenario parameters. -/
theorem C4_witness :
    0 ≤ demoRes.unaccounted_kg ∧ 0 ≤ demoRes.waste_out_kg ∧ 0 ≤ demoRes.material_eff_pct :=
  C4_nonneg demoModel demoRes (by rfl) (by decide) (by decide)
    (by decide) (by decide) (by decide)

theorem targets_length_le_two {m : Model} {r : BalanceResult} {targets : List Block}
    (h : compute_balances m = some r)
    (ht : lossTargets m.blocks = some targets) : targets.length ≤ 2 := by
  obtain ⟨t, l, d, f, b, ht', hl, hd, hf, hb, hr⟩ := compute_eq_some_iff.mp h
  rw [ht] at ht'
  obtain rfl := Option.some.inj ht'
  exact le_trans (lossDict_some_length hl) (splitWeights_length_le _)

/-- Three cutting/forming stages: the split list has only two entries, so
the dict comprehension of model.py line 107 indexes past its end. -/
def threeCutModel : Model :=
  { demoModel with blocks := [{ user_label := "Cut A", type := "cutting" },
                              { user_label := "Cut B", type := "cutting" },
                              { user_label := "Form C", type := "forming" }] }

/-- C2 counterexample: with three cutting/forming stages in a non-empty
chain the computation fails (IndexError on the split weights) instead of
emitting one loss edge per target with zero weight beyond the second. -/
theorem C2_counterexample :
    threeCutModel.blocks ≠ [] ∧ compute_balances threeCutModel = none :=
  ⟨by decide, by rfl⟩

/-- C2 (amended): loss-attribution targets are exactly the cutting/forming
stages, with first-stage fallback; any returned result has at most two
targets (three or more raise instead, see the counterexample), and the
unaccounted mass is split 100% to a single target or 60%/40% over two
targets with distinct labels, one loss edge per target. -/
theorem C2_loss_split (m : Model) (r : BalanceResult) (targets : List Block)
    (h : compute_balances m = some r)
    (ht : lossTargets m.blocks = some targets)
    (hnd : (targets.map Block.user_label).Nodup) :
    targets = specTargets m.blocks ∧
    targets.length ≤ 2 ∧
    lossEdges r = (specSplit (targets.map Block.user_label) r.unaccounted_kg).map
      (fun kv => (⟨kv.1, "Process losses (unaccounted)", kv.2, "loss_inferred"⟩ : FlowRow)) := by
  have hlen2 := targets_length_le_two h ht
  obtain ⟨hspec, hne⟩ := lossTargets_spec ht
  refine ⟨hspec, hlen2, ?_⟩
  cases targets with
  | nil => exact absurd rfl hne
  | cons t1 rest =>
    cases rest with
    | nil =>
      rw [lossEdges_one_target h ht]
      rfl
    | cons t2 rest2 =>
      cases rest2 with
      | nil =>
        have hlab : t1.user_label ≠ t2.user_label := by
          simp only [List.map_cons, List.map_nil, List.nodup_cons] at hnd
          simpa using hnd.1
        rw [(lossEdges_two_targets h ht).1 hlab]
        rfl
      | cons t3 rest3 =>
        simp only [List.length_cons] at hlen2
        omega

/-- C2 witness: the demo model, whose targets are its cutting and forming
stages with distinct labels. -/
theorem C2_witness :
    ([{ user_label := "Cutting", type := "cutting" },
      { user_label := "Forming", type := "forming" }] : List Block) =
        specTargets demoModel.blocks ∧
    ([{ user_label := "Cutting", type := "cutting" },
      { user_label := "Forming", type := "forming" }] : List Block).length ≤ 2 ∧
    lossEdges demoRes =
      (specSplit (([{ user_label := "Cutting", type := "cutting" },
          { user_label := "Forming", type := "forming" }] : List Block).map Block.user_label)
        demoRes.unaccounted_kg).map
        (fun kv => (⟨kv.1, "Process losses (unaccounted)", kv.2, "loss_inferred"⟩ : FlowRow)) :=
  C2_loss_split demoModel demoRes _ (by rfl) (by rfl) (by decide)

/-- C10 (amended): losses are keyed by display label; with two targets of
distinct labels the loss edges sum exactly to unaccounted_kg, while two
targets sharing a label collapse to a single 40% edge, whose total differs
from unaccounted_kg whenever the latter is nonzero. -/
theorem C10_label_collision (m : Model) (r : BalanceResult) (t1 t2 : Block)
    (h : compute_balances m = some r)
    (ht : lossTargets m.blocks = some [t1, t2]) :
    (t1.user_label ≠ t2.user_label →
      ((lossEdges r).map FlowRow.kg).sum = r.unaccounted_kg) ∧
    (t1.user_label = t2.user_label →
      lossEdges r = [⟨t1.user_label, "Process losses (unaccounted)",
        r.unaccounted_kg * (2/5), "loss_inferred"⟩] ∧
      (r.unaccounted_kg ≠ 0 →
        ((lossEdges r).map FlowRow.kg).sum ≠ r.unaccounted_kg)) := by
  obtain ⟨hne', heq'⟩ := lossEdges_two_targets h ht
  constructor
  · intro hlab
    rw [hne' hlab]
    simp only [List.map_cons, List.map_nil, List.sum_cons, List.sum_nil]
    ring
  · intro hlab
    refine ⟨heq' hlab, ?_⟩
    intro hu
    rw [heq' hlab]
    simp only [List.map_cons, List.map_nil, List.sum_cons, List.sum_nil]
    intro habs
    exact hu (by linarith)

/-- Two identically labelled cutting stages over an empty data bundle, so
the unaccounted mass is 0. -/
def dupLabelModel0 : Model :=
  { boundary_start := "In", boundary_end := "Out",
    blocks := [{ user_label := "Cut", type := "cutting" },
               { user_label := "Cut", type := "cutting" }],
    data := { production_output := ⟨[]⟩, material_purchases := ⟨[]⟩,
              energy_site := ⟨[]⟩, waste_summary := ⟨[]⟩ },
    scenarios := {} }

/-- The computed result of dupLabelModel0. -/
def dup0Res : BalanceResult := (compute_balances dupLabelModel0).getD defaultResult

/-- C10 counterexample: with two identically labelled targets and zero
unaccounted mass the loss edges do sum to unaccounted_kg, refuting the
final clause of the claim as stated. -/
theorem C10_counterexample :
    lossTargets dupLabelModel0.blocks =
      some [{ user_label := "Cut", type := "cutting" },
            { user_label := "Cut", type := "cutting" }] ∧
    compute_balances dupLabelModel0 = some dup0Res ∧
    ((lossEdges dup0Res).map FlowRow.kg).sum = dup0Res.unaccounted_kg := by
  refine ⟨by rfl, by rfl, ?_⟩
  have h2 := (@lossEdges_two_targets dupLabelModel0 dup0Res
    { user_label := "Cut", type := "cutting" }
    { user_label := "Cut", type := "cutting" } (by rfl) (by rfl)).2 rfl
  rw [h2]
  have hu : dup0Res.unaccounted_kg = 0 := by
    show unaccountedOf dupLabelModel0 = 0
    norm_num [unaccountedOf, matIn, matInOpt, sumMaterialInKg, findCol, prodOut,
      prodBase, qtyOf, wasteScn, wasteRaw, wasteRawOpt, sumWasteKg, dupLabelModel0]
  rw [hu]
  norm_num

/-- C10 witness: two same-label cutting stages with 1000 kg of unmatched
material input. -/
def dupLabelModel1 : Model :=
  { dupLabelModel0 with
    data := { production_output := ⟨[]⟩, material_purchases := dfMat,
              energy_site := ⟨[]⟩, waste_summary := ⟨[]⟩ } }

/-- The computed result of dupLabelModel1. -/
def dup1Res : BalanceResult := (compute_balances dupLabelModel1).getD defaultResult

/-- C10 witness: the collapse to a single 40% edge at a model with two
identically labelled cutting stages. -/
theorem C10_witness :
    (({ user_label := "Cut", type := "cutting" } : Block).user_label ≠
        ({ user_label := "Cut", type := "cutting" } : Block).user_label →
      ((lossEdges dup1Res).map FlowRow.kg).sum = dup1Res.unaccounted_kg) ∧
    (({ user_label := "Cut", type := "cutting" } : Block).user_label =
        ({ user_label := "Cut", type := "cutting" } : Block).user_label →
      lossEdges dup1Res = [⟨({ user_label := "Cut", type := "cutting" } : Block).user_label,
        "Process losses (unaccounted)", dup1Res.unaccounted_kg * (2/5), "loss_inferred"⟩] ∧
      (dup1Res.unaccounted_kg ≠ 0 →
        ((lossEdges dup1Res).map FlowRow.kg).sum ≠ dup1Res.unaccounted_kg)) :=
  C10_label_collision dupLabelModel1 dup1Res _ _ (by rfl) (by rfl)

/-- Production bundle with no quantity column (baseline production mass
0). -/
def noQtyBundle : DataBundle :=
  { production_output := ⟨[]⟩, material_purchases := dfMat,
    energy_site := dfEnergy, waste_summary := dfWaste }

/-- Demo model over noQtyBundle with zero yield improvement. -/
def mC5a : Model := { demoModel with data := noQtyBundle }

/-- Demo model over noQtyBundle with 10% yield improvement. -/
def mC5b : Model :=
  { demoModel with data := noQtyBundle, scenarios := { yield_improve_pct := 10 } }

/-- C5 counterexample: with the data bundle fixed and no production
quantity column, raising yield_improve_pct from 0 to 10 leaves prod_out_kg
unchanged (both 0), refuting the unconditional strict increase. -/
theorem C5_counterexample :
    mC5a.data = mC5b.data ∧
    mC5a.scenarios.yield_improve_pct < mC5b.scenarios.yield_improve_pct ∧
    (compute_balances mC5a).isSome = true ∧
    (compute_balances mC5b).isSome = true ∧
    ((compute_balances mC5a).getD defaultResult).prod_out_kg =
      ((compute_balances mC5b).getD defaultResult).prod_out_kg := by
  refine ⟨rfl, by decide, by rfl, by rfl, ?_⟩
  show prodOut mC5a = prodOut mC5b
  norm_num [prodOut, prodBase, qtyOf, mC5a, mC5b, demoModel, noQtyBundle, findCol]

/-- C5 (amended): with the data bundle fixed, raising scrap_reduction_pct
strictly lowers waste_out_kg when the baseline waste is positive; raising
yield_improve_pct strictly raises prod_out_kg when the baseline production
mass is positive; raising energy_intensity_improve_pct from a non-negative
level strictly lowers each energy total that is positive, when energy data
exists. -/
theorem C5_monotonic (m1 m2 : Model) (r1 r2 : BalanceResult)
    (h1 : compute_balances m1 = some r1) (h2 : compute_balances m2 = some r2)
    (hd : m1.data = m2.data) :
    (m1.scenarios.scrap_reduction_pct < m2.scenarios.scrap_reduction_pct →
      0 < wasteRaw m1 → r2.waste_out_kg < r1.waste_out_kg) ∧
    (m1.scenarios.yield_improve_pct < m2.scenarios.yield_improve_pct →
      0 < prodBase m1 → r1.prod_out_kg < r2.prod_out_kg) ∧
    (0 ≤ m1.scenarios.energy_intensity_improve_pct →
      m1.scenarios.energy_intensity_improve_pct < m2.scenarios.energy_intensity_improve_pct →
      hasEnergy m1 = true →
      (0 < elecRaw m1 → r2.energy_elec_kwh < r1.energy_elec_kwh) ∧
      (0 < gasRaw m1 → r2.energy_gas_kwh < r1.energy_gas_kwh)) := by
  obtain ⟨t, l, d, f, b, ht, hl, hdv, hf, hb, hr⟩ := compute_eq_some_iff.mp h1
  subst hr
  obtain ⟨t2, l2, d2, f2, b2, ht2, hl2, hdv2, hf2, hb2, hr2⟩ := compute_eq_some_iff.mp h2
  subst hr2
  have hW : wasteRaw m2 = wasteRaw m1 := by
    unfold wasteRaw wasteRawOpt
    rw [hd]
  have hPB : prodBase m2 = prodBase m1 := by
    unfold prodBase qtyOf
    rw [hd]
  have hER : elecRaw m2 = elecRaw m1 := by
    unfold elecRaw
    rw [hd]
  have hGR : gasRaw m2 = gasRaw m1 := by
    unfold gasRaw
    rw [hd]
  have hHE : hasEnergy m2 = hasEnergy m1 := by
    unfold hasEnergy
    rw [hd]
  refine ⟨?_, ?_, ?_⟩
  · intro hs hw
    show wasteScn m2 < wasteScn m1
    unfold wasteScn
    rw [hW]
    apply mul_lt_mul_of_pos_left _ hw
    linarith
  · intro hy hp
    show prodOut m1 < prodOut m2
    unfold prodOut
    rw [hPB]
    apply mul_lt_mul_of_pos_left _ hp
    linarith
  · intro he0 helt hhe
    constructor
    · intro helec
      show elecOut m2 < elecOut m1
      unfold elecOut
      rw [hER, hHE, hhe]
      have h2pos : 0 < m2.scenarios.energy_intensity_improve_pct / 100 := by linarith
      rw [if_pos ⟨rfl, h2pos⟩]
      rcases eq_or_lt_of_le he0 with heq | hpos
      · rw [if_neg (by rw [← heq]; simp)]
        nlinarith
      · rw [if_pos ⟨rfl, by linarith⟩]
        apply mul_lt_mul_of_pos_left _ helec
        linarith
    · intro hgas
      show gasOut m2 < gasOut m1
      unfold gasOut
      rw [hGR, hHE, hhe]
      have h2pos : 0 < m2.scenarios.energy_intensity_improve_pct / 100 := by linarith
      rw [if_pos ⟨rfl, h2pos⟩]
      rcases eq_or_lt_of_le he0 with heq | hpos
      · rw [if_neg (by rw [← heq]; simp)]
        nlinarith
      · rw [if_pos ⟨rfl, by linarith⟩]
        apply mul_lt_mul_of_pos_left _ hgas
        linarith

/-- Demo scenarios with all three percentages raised. -/
def mC5w : Model :=
  { demoModel with scenarios :=
    { scrap_reduction_pct := 10, yield_improve_pct := 5,
      energy_intensity_improve_pct := 10, allocate_energy := false } }

/-- The computed result of mC5w. -/
def resC5w : BalanceResult := (compute_balances mC5w).getD defaultResult

/-- C5 witness: the demo model against the same model with all three
scenario percentages raised. -/
theorem C5_witness :
    (demoModel.scenarios.scrap_reduction_pct < mC5w.scenarios.scrap_reduction_pct →
      0 < wasteRaw demoModel → resC5w.waste_out_kg < demoRes.waste_out_kg) ∧
    (demoModel.scenarios.yield_improve_pct < mC5w.scenarios.yield_improve_pct →
      0 < prodBase demoModel → demoRes.prod_out_kg < resC5w.prod_out_kg) ∧
    (0 ≤ demoModel.scenarios.energy_intensity_improve_pct →
      demoModel.scenarios.energy_intensity_improve_pct <
        mC5w.scenarios.energy_intensity_improve_pct →
      hasEnergy demoModel = true →
      (0 < elecRaw demoModel → resC5w.energy_elec_kwh < demoRes.energy_elec_kwh) ∧
      (0 < gasRaw demoModel → resC5w.energy_gas_kwh < demoRes.energy_gas_kwh)) :=
  C5_monotonic demoModel mC5w demoRes resC5w (by rfl) (by rfl) rfl

/-- Non-empty stage list with a waste table holding a route column only:
the diversion lookup of a quantity column fails. -/
def mC8x : Model :=
  { boundary_start := "In", boundary_end := "Out",
    blocks := [{ user_label := "Press", type := "forming" }],
    data := { production_output := dfProd, material_purchases := dfMat,
              energy_site := dfEnergy,
              waste_summary := ⟨[("Route", [Cell.str "Reuse"])]⟩ },
    scenarios := {} }

/-- C8 counterexample: with a route column present but no kg/quantity
column, compute_balances fails instead of producing the claimed diversion
figures. -/
theorem C8_counterexample :
    (findCol mC8x.data.waste_summary ["route", "disposal"]).isSome = true ∧
    compute_balances mC8x = none :=
  ⟨by rfl, by rfl⟩

/-- C8 (amended): when a result is returned, diverted_kg is the
recycling/reuse sum scaled by the scrap-reduction factor, diversion_pct is
the guarded ratio against the scaled waste total, and with no route column
the diverted sum is 0 and the corresponding assumption is recorded; a
route column without a kg/quantity column instead makes the computation
raise (see the counterexample). -/
theorem C8_diversion (m : Model) (r : BalanceResult)
    (h : compute_balances m = some r) :
    r.diverted_kg = rawDiverted m * (1 - m.scenarios.scrap_reduction_pct / 100) ∧
    (r.diversion_pct =
      if 0 < r.waste_out_kg then r.diverted_kg / r.waste_out_kg * 100 else 0) ∧
    (findCol m.data.waste_summary ["route", "disposal"] = none →
      rawDiverted m = 0 ∧
      "No disposal route column detected; diversion % may be incomplete." ∈
        r.assumptions) := by
  obtain ⟨t, l, d, f, b, ht, hl, hd, hf, hb, hr⟩ := compute_eq_some_iff.mp h
  obtain ⟨hdv1, hdv2⟩ := divertedOf_some hd
  subst hr
  refine ⟨?_, ?_, ?_⟩
  · show d.1 * (1 - m.scenarios.scrap_reduction_pct / 100) =
      rawDiverted m * (1 - m.scenarios.scrap_reduction_pct / 100)
    rw [hdv1]
  · rfl
  · intro hnone
    constructor
    · cases hk : findCol m.data.waste_summary ["kg", "quantity"] <;>
        simp [rawDiverted, hnone, hk]
    · have hdv2' := hdv2 hnone
      show _ ∈ assumptionsOf m d.2
      rw [hdv2']
      simp [assumptionsOf]

/-- C8 witness: the demo model, whose waste table has route and quantity
columns with one recycling row. -/
theorem C8_witness :
    demoRes.diverted_kg =
      rawDiverted demoModel * (1 - demoModel.scenarios.scrap_reduction_pct / 100) ∧
    (demoRes.diversion_pct =
      if 0 < demoRes.waste_out_kg then
        demoRes.diverted_kg / demoRes.waste_out_kg * 100 else 0) ∧
    (findCol demoModel.data.waste_summary ["route", "disposal"] = none →
      rawDiverted demoModel = 0 ∧
      "No disposal route column detected; diversion % may be incomplete." ∈
        demoRes.assumptions) :=
  C8_diversion demoModel demoRes (by rfl)

end MFM
